import Mathlib

/-!
Verification development for the `naive-force-graph` simulation engine.

The Rust source (`src/lib.rs`) is shallowly embedded below: `f32` values are
modelled as real numbers, so every arithmetic operation is exact and the
`NaN` panics in the source are unreachable on the modelled (guarded) paths.
The external `naive_graph` collaborator is modelled as a node store
`ℕ → Node U` plus an edge list; the iteration order of the engine's
`HashSet` of active node ids is passed explicitly as a list.  The single
`rand::random::<f32>()` draw a step can make is passed explicitly as `r`.
-/

namespace NaiveForceGraph

open scoped Classical

/-- Machine epsilon of `f32` (`f32::EPSILON` = 2⁻²³) as a real number. -/
noncomputable def f32Eps : ℝ := 1 / 2 ^ 23

/-- `Vec2` from the source: a 2D vector with `f32` components. -/
@[ext]
structure Vec2 where
  x : ℝ
  y : ℝ

/-- `Vec2::mul_assign` (`v *= c`) from the source, in functional form. -/
noncomputable def Vec2.scale (v : Vec2) (c : ℝ) : Vec2 :=
  ⟨v.x * c, v.y * c⟩

/-- `NodeData` from the source: the user-visible payload.  Its only fields
are the generic user data and the position; the source derives `Default`,
whose `f32` field defaults are `0.0`. -/
@[ext]
structure NodeData (U : Type) where
  user_data : U
  x : ℝ
  y : ℝ

/-- The `derive(Default)` instance of `NodeData`, given the payload type's
default value `u`: every numeric field defaults to zero. -/
noncomputable def NodeData.mkDefault (u : U) : NodeData U :=
  ⟨u, 0, 0⟩

/-- `Node` from the source: `NodeData` plus accumulated acceleration and
velocity.  The source also stores `id: Option<NodeId>`, which always equals
the store key for registered nodes; the model addresses nodes by the store
key directly. -/
@[ext]
structure Node (U : Type) where
  data : NodeData U
  ax : ℝ
  ay : ℝ
  vx : ℝ
  vy : ℝ

/-- `Node::apply` from the source: accumulate a force into the acceleration.
The source's `NaN` panic guard is unreachable in the real-number model. -/
noncomputable def Node.apply (n : Node U) (force : Vec2) : Node U :=
  { n with ax := n.ax + force.x, ay := n.ay + force.y }

/-- `Parameters` from the source, with its `count` bookkeeping field. -/
structure Parameters where
  ideal_distance : ℝ
  really_close_distance : ℝ
  spring_factor : ℝ
  escape_intersection_factor : ℝ
  distance_factor : ℝ
  count : ℤ

/-- `Parameters::default` from the source. -/
noncomputable def Parameters.default : Parameters :=
  { ideal_distance := 45
    really_close_distance := 0.1
    spring_factor := 10000
    escape_intersection_factor := 100
    distance_factor := 0.3
    count := 0 }

/-- `Node::update` from the source: the per-node integrator step.  Position
is advanced first, using the OLD velocity scaled by `spring_factor`; the new
velocity is `acceleration * dt` (the old velocity is discarded); the
accumulated acceleration is then cleared. -/
noncomputable def Node.update (n : Node U) (p : Parameters) (dt : ℝ) : Node U :=
  { n with
    data := { n.data with
      x := n.data.x + p.spring_factor * n.vx * dt
      y := n.data.y + p.spring_factor * n.vy * dt }
    vx := n.ax * dt
    vy := n.ay * dt
    ax := 0
    ay := 0 }

/-- `Node::is_stable` from the source. -/
def Node.is_stable (n : Node U) : Prop :=
  |n.vx| ≤ f32Eps ∧ |n.vy| ≤ f32Eps

/-- `ForceGraph::calculate_force` from the source: the three-band pairwise
force model.  `distance` is supplied by the caller (it is the Euclidean norm
of `diff` at every call site). -/
noncomputable def calculate_force (p : Parameters) (diff : Vec2) (distance : ℝ)
    (is_neighbor : Bool) : Vec2 :=
  if distance ≤ f32Eps then ⟨0, 0⟩
  else if distance < p.ideal_distance * 0.9 then
    ⟨diff.x / distance / (max distance p.really_close_distance) ^ p.distance_factor,
     diff.y / distance / (max distance p.really_close_distance) ^ p.distance_factor⟩
  else if distance > p.ideal_distance * 1.5 ∧ is_neighbor = true then
    ⟨-diff.x / distance * distance ^ p.distance_factor,
     -diff.y / distance * distance ^ p.distance_factor⟩
  else ⟨0, 0⟩

/-- Euclidean magnitude of a `Vec2`. -/
noncomputable def magnitude (v : Vec2) : ℝ :=
  Real.sqrt (v.x ^ 2 + v.y ^ 2)

/-- `get_line_intersection` from the source.  In `f32`, a zero denominator
makes `s` and `t` non-finite, so the `[0,1]` range test is false and the
result is `None`; the model makes that guard explicit. -/
noncomputable def get_line_intersection (l1 l2 : Vec2 × Vec2) : Option Vec2 :=
  let p0 := l1.1
  let p1 := l1.2
  let p2 := l2.1
  let p3 := l2.2
  let s1 : Vec2 := ⟨p1.x - p0.x, p1.y - p0.y⟩
  let s2 : Vec2 := ⟨p3.x - p2.x, p3.y - p2.y⟩
  let denom := -s2.x * s1.y + s1.x * s2.y
  if denom = 0 then none
  else
    let s := (-s1.y * (p0.x - p2.x) + s1.x * (p0.y - p2.y)) / denom
    let t := (s2.x * (p0.y - p2.y) - s2.y * (p0.x - p2.x)) / denom
    if 0 ≤ s ∧ s ≤ 1 ∧ 0 ≤ t ∧ t ≤ 1 then
      some ⟨p0.x + t * s1.x, p0.y + t * s1.y⟩
    else none

/-- `IntersectionInfo` from the source. -/
structure IntersectionInfo where
  x : ℝ
  y : ℝ
  pair : (ℕ × ℕ) × (ℕ × ℕ)

/-- The endpoint-sharing test from the source's intersection loops:
`pair1.0 == pair2.0 || pair1.0 == pair2.1 || pair1.1 == pair2.0 || pair1.1 == pair2.1`. -/
def sharesEndpoint (a b : ℕ × ℕ) : Bool :=
  a.1 == b.1 || a.1 == b.2 || a.2 == b.1 || a.2 == b.2

/-- The body of the double loops in `visit_intersections` and
`visit_neighbor_intersections`: skip a geometrically identical segment, skip
a pair sharing an endpoint, otherwise report the segment intersection. -/
noncomputable def intersectionTest (a b : (ℕ × ℕ) × (Vec2 × Vec2)) :
    Option IntersectionInfo :=
  if a.2 = b.2 then none
  else if sharesEndpoint a.1 b.1 then none
  else (get_line_intersection a.2 b.2).map fun v => ⟨v.x, v.y, (a.1, b.1)⟩

/-- `ForceGraph` from the source.  The external `naive_graph` collaborator
is modelled as a total node store over ids plus a list of edges (endpoint id
pairs, in the collaborator's enumeration order); the edge user payload never
influences the engine and is omitted. -/
structure ForceGraph (U : Type) where
  nodes : ℕ → Node U
  edges : List (ℕ × ℕ)
  parameters : Parameters

/-- Position of a node in the store, as read by the geometry passes. -/
def ForceGraph.posFun (g : ForceGraph U) : ℕ → Vec2 :=
  fun i => ⟨(g.nodes i).data.x, (g.nodes i).data.y⟩

/-- Replace one node in the store. -/
def ForceGraph.setNode (g : ForceGraph U) (i : ℕ) (n : Node U) : ForceGraph U :=
  { g with nodes := Function.update g.nodes i n }

/-- Displacement of a node's position by a vector (the `graph[id].x += b.x;
graph[id].y += b.y;` step at the end of `ForceGraph::update`). -/
noncomputable def Node.displace (n : Node U) (v : Vec2) : Node U :=
  { n with data := { n.data with x := n.data.x + v.x, y := n.data.y + v.y } }

/-- The `lines` vector built by `visit_intersections`: one entry per edge,
in `visit_edges` enumeration order. -/
def linesOf (posf : ℕ → Vec2) (edges : List (ℕ × ℕ)) :
    List ((ℕ × ℕ) × (Vec2 × Vec2)) :=
  edges.map fun e => ((e.1, e.2), (posf e.1, posf e.2))

/-- `ForceGraph::visit_intersections` from the source, as the list of
callback invocations in order: a double loop over ALL ordered pairs of the
collected edge segments, filtered by `intersectionTest`. -/
noncomputable def ForceGraph.visit_intersections (g : ForceGraph U) :
    List IntersectionInfo :=
  (linesOf g.posFun g.edges).flatMap fun a =>
    (linesOf g.posFun g.edges).filterMap fun b => intersectionTest a b

/-- The neighbor ids of `n`, derived from the edge list in enumeration
order (modelling the collaborator's `neighbors_data(n)` cursor). -/
def neighborIds (edges : List (ℕ × ℕ)) (n : ℕ) : List ℕ :=
  edges.filterMap fun e =>
    if e.1 == n then some e.2 else if e.2 == n then some e.1 else none

/-- `ForceGraph::visit_neighbor_intersections` from the source, as the list
of callback invocations: segments incident to `n` against all segments not
touching `n`, filtered exactly as the global scan. -/
noncomputable def visitNeighborAux (posf : ℕ → Vec2) (edges : List (ℕ × ℕ))
    (n : ℕ) : List IntersectionInfo :=
  let fromV := posf n
  let neighbor_edges := (neighborIds edges n).map fun k => ((n, k), (fromV, posf k))
  let lines := edges.filterMap fun e =>
    if e.1 == n || e.2 == n then none
    else some ((e.1, e.2), (posf e.1, posf e.2))
  neighbor_edges.flatMap fun a => lines.filterMap fun b => intersectionTest a b

/-- `visit_neighbor_intersections` on a graph value. -/
noncomputable def ForceGraph.visit_neighbor_intersections (g : ForceGraph U)
    (n : ℕ) : List IntersectionInfo :=
  visitNeighborAux g.posFun g.edges n

/-- The `bounce` helper inside `ForceGraph::update`: `x = rand * d`,
`y = sqrt(1 - x²) * d`, with the single random draw passed as `r`. -/
noncomputable def bounce (r really_close_distance : ℝ) : Vec2 :=
  let x := r * really_close_distance
  ⟨x, Real.sqrt (1 - x ^ 2) * really_close_distance⟩

/-- The escape scan performed by `update` on a stable node's local
intersections: skip intersections closer than `really_close_distance`; at
the first remaining one return the escape force (the pairwise force model on
the displacement node → intersection, scaled by `escape_intersection_factor`)
together with that displacement vector (stored in `bouncing`). -/
noncomputable def escapeScan (p : Parameters) (origin : Vec2) :
    List IntersectionInfo → Option (Vec2 × Vec2)
  | [] => none
  | info :: rest =>
    let dx := info.x - origin.x
    let dy := info.y - origin.y
    let distance := Real.sqrt (dx ^ 2 + dy ^ 2)
    if distance < p.really_close_distance then escapeScan p origin rest
    else
      some ((calculate_force p ⟨dx, dy⟩ distance false).scale
              p.escape_intersection_factor,
            ⟨dx, dy⟩)

/-- The escape candidate for node `m` (the `bouncing`/`force` pair set by the
closure passed to `visit_neighbor_intersections` in `update`). -/
noncomputable def ForceGraph.firstEscape (g : ForceGraph U) (p : Parameters)
    (m : ℕ) : Option (Vec2 × Vec2) :=
  escapeScan p (g.posFun m) (visitNeighborAux g.posFun g.edges m)

/-- The neighbor test `m_neighbors.contains(&n)` (the collaborator's
`neighbor_id_set`, symmetric over undirected edges). -/
def neighbor (edges : List (ℕ × ℕ)) (m n : ℕ) : Bool :=
  edges.any fun e => (e.1 == m && e.2 == n) || (e.1 == n && e.2 == m)

/-- The inner pairwise loop of `update` for node `m`: walk the active set,
skip `m` itself; if a partner is closer than `really_close_distance` stop
with the bounce flag; otherwise accumulate the pairwise force into `m`'s
acceleration (`acc` carries `m`'s node state; its position is not modified
by the loop). -/
noncomputable def pairScan (p : Parameters) (g : ForceGraph U) (m : ℕ)
    (acc : Node U) : List ℕ → Node U × Bool
  | [] => (acc, false)
  | n :: rest =>
    if n = m then pairScan p g m acc rest
    else
      let diff : Vec2 := ⟨acc.data.x - (g.nodes n).data.x,
                          acc.data.y - (g.nodes n).data.y⟩
      let distance := Real.sqrt (diff.x ^ 2 + diff.y ^ 2)
      if distance < p.really_close_distance then (acc, true)
      else
        pairScan p g m
          (acc.apply (calculate_force p diff distance (neighbor g.edges m n))) rest

/-- The `count` bump at the top of `ForceGraph::update`. -/
def stepParams (p : Parameters) : Parameters :=
  { p with count := if p.count ≤ 100 then p.count + 1 else p.count }

/-- The labelled outer loop of `ForceGraph::update` over the active node
set.  Returns the final store together with the `bouncing` value at loop
exit (`some` exactly when the loop was short-circuited by `break`): the
escape branch for a stable node, or the near-coincidence bounce branch;
otherwise the node's pairwise pass is accumulated and integrated and the
loop continues. -/
noncomputable def updateLoop (p : Parameters) (all : List ℕ) (r dt : ℝ) :
    ForceGraph U → List ℕ → ForceGraph U × Option (ℕ × Vec2)
  | g, [] => (g, none)
  | g, m :: rest =>
    match (if (g.nodes m).is_stable then g.firstEscape p m else none) with
    | some (force, vector) =>
      (g.setNode m (((g.nodes m).apply force).update p dt), some (m, vector))
    | none =>
      match pairScan p g m (g.nodes m) all with
      | (acc, true) =>
        (g.setNode m (acc.update p dt), some (m, bounce r p.really_close_distance))
      | (acc, false) => updateLoop p all r dt (g.setNode m (acc.update p dt)) rest

/-- `ForceGraph::update` from the source: bump `count`, run the node loop
(`order` is the `HashSet` iteration order over the active ids, used by both
the outer and the inner loop), then, if the loop was short-circuited with a
`bouncing` value, add its vector to that node's position. -/
noncomputable def ForceGraph.update (g : ForceGraph U) (order : List ℕ)
    (r dt : ℝ) : ForceGraph U :=
  let p := stepParams g.parameters
  match updateLoop p order r dt { g with parameters := p } order with
  | (g2, none) => g2
  | (g2, some (id, b)) => g2.setNode id ((g2.nodes id).displace b)

/-- Modelled from the spec (§4.3 Integrator), for comparison with the source
integrator `Node.update`: `velocity = (velocity + acceleration * dt *
speed_scale) * damping_factor`; `position += velocity * dt`; accumulated
acceleration resets to zero. -/
noncomputable def specIntegratorStep (damping speed_scale : ℝ) (n : Node U)
    (dt : ℝ) : Node U :=
  let vx := (n.vx + n.ax * dt * speed_scale) * damping
  let vy := (n.vy + n.ay * dt * speed_scale) * damping
  { n with
    data := { n.data with x := n.data.x + vx * dt, y := n.data.y + vy * dt }
    vx := vx
    vy := vy
    ax := 0
    ay := 0 }

/-- A node with a given position and all simulation state zero. -/
noncomputable def nodeAt (x y : ℝ) : Node Unit :=
  ⟨⟨(), x, y⟩, 0, 0, 0, 0⟩

/-- The crossing-X example graph: nodes 0..3 at (0,0), (10,10), (0,10),
(10,0) with edges 0–1 and 2–3, whose segments cross at (5,5). -/
noncomputable def gX : ForceGraph Unit :=
  { nodes := fun i =>
      if i = 0 then nodeAt 0 0
      else if i = 1 then nodeAt 10 10
      else if i = 2 then nodeAt 0 10
      else nodeAt 10 0
    edges := [(0, 1), (2, 3)]
    parameters := Parameters.default }

/-- The escape example graph: a stable node 0 at the origin with an edge to
node 1 at (10,0), crossed at (5,0) by the edge between node 2 at (5,-5) and
node 3 at (5,5). -/
noncomputable def gE : ForceGraph Unit :=
  { nodes := fun i =>
      if i = 0 then nodeAt 0 0
      else if i = 1 then nodeAt 10 0
      else if i = 2 then nodeAt 5 (-5)
      else nodeAt 5 5
    edges := [(0, 1), (2, 3)]
    parameters := Parameters.default }

/-- Two coincident nodes at the origin, no edges (node 0 additionally starts
with velocity (1,0)). -/
noncomputable def gC : ForceGraph Unit :=
  { nodes := fun i =>
      if i = 0 then ⟨⟨(), 0, 0⟩, 0, 0, 1, 0⟩ else nodeAt 0 0
    edges := []
    parameters := Parameters.default }

/-- Two coincident nodes at the origin with zero state, no edges. -/
noncomputable def gB : ForceGraph Unit :=
  { nodes := fun _ => nodeAt 0 0
    edges := []
    parameters := Parameters.default }

/-- A single free node at (1,2) with velocity (3,4), no edges. -/
noncomputable def gW : ForceGraph Unit :=
  { nodes := fun _ => ⟨⟨(), 1, 2⟩, 0, 0, 3, 4⟩
    edges := []
    parameters := Parameters.default }

/-! ## Helper lemmas about the force model -/

/-- Beyond 1.5× the ideal distance, a positive distance is never in the
close band (whatever the sign of `ideal_distance`). -/
lemma far_not_close (p : Parameters) (d : ℝ) (hd : 0 < d)
    (h15 : p.ideal_distance * 1.5 < d) : ¬ d < p.ideal_distance * 0.9 := by
  push_neg
  rcases le_or_lt 0 p.ideal_distance with hi | hi <;> nlinarith

/-- The close-band branch of `calculate_force`, spelled out. -/
lemma close_force_components (p : Parameters) (diff : Vec2) (d : ℝ)
    (he : f32Eps < d) (hclose : d < p.ideal_distance * 0.9) :
    calculate_force p diff d false =
      ⟨diff.x / d / (max d p.really_close_distance) ^ p.distance_factor,
       diff.y / d / (max d p.really_close_distance) ^ p.distance_factor⟩ := by
  unfold calculate_force
  rw [if_neg (not_le.mpr he), if_pos hclose]

/-- Magnitude of the close-band force: when `d` is the norm of `diff`, it is
`1 / max(d, really_close_distance) ^ distance_factor`, independent of the
direction of `diff`. -/
lemma close_force_magnitude (p : Parameters) (diff : Vec2) (d : ℝ)
    (he : f32Eps < d) (hclose : d < p.ideal_distance * 0.9)
    (hsum : diff.x ^ 2 + diff.y ^ 2 = d ^ 2) :
    magnitude (calculate_force p diff d false)
      = 1 / (max d p.really_close_distance) ^ p.distance_factor := by
  have hd : 0 < d := lt_trans (by norm_num [f32Eps]) he
  have hM : 0 < (max d p.really_close_distance) ^ p.distance_factor :=
    Real.rpow_pos_of_pos (lt_of_lt_of_le hd (le_max_left _ _)) _
  rw [close_force_components p diff d he hclose]
  unfold magnitude
  have hkey : (diff.x / d / (max d p.really_close_distance) ^ p.distance_factor) ^ 2
      + (diff.y / d / (max d p.really_close_distance) ^ p.distance_factor) ^ 2
      = (1 / (max d p.really_close_distance) ^ p.distance_factor) ^ 2 := by
    rw [div_div, div_div, div_pow, div_pow, div_add_div_same, hsum, mul_pow,
      div_mul_eq_div_div, div_self (pow_ne_zero 2 (ne_of_gt hd)), div_pow, one_pow]
  rw [hkey, Real.sqrt_sq (by positivity)]

/-! ## Claim C1 -/

/-- Claim C1: for any pair at distance `d` in the middle band
`0.9·ideal ≤ d ≤ 1.5·ideal` the computed pairwise force is zero; for a
neighbor-connected pair beyond `1.5·ideal` the force has strictly negative
inner product with the displacement `diff` (it points so as to reduce the
distance); for a non-neighbor pair beyond `1.5·ideal` the force is zero. -/
theorem calculate_force_bands (p : Parameters) (diff : Vec2) (d : ℝ) (b : Bool) :
    (p.ideal_distance * 0.9 ≤ d → d ≤ p.ideal_distance * 1.5 →
      calculate_force p diff d b = ⟨0, 0⟩) ∧
    (p.ideal_distance * 1.5 < d → f32Eps < d → diff.x ^ 2 + diff.y ^ 2 = d ^ 2 →
      (calculate_force p diff d true).x * diff.x
        + (calculate_force p diff d true).y * diff.y < 0) ∧
    (p.ideal_distance * 1.5 < d → calculate_force p diff d false = ⟨0, 0⟩) := by
  refine ⟨?_, ?_, ?_⟩
  · intro h1 h2
    unfold calculate_force
    by_cases hguard : d ≤ f32Eps
    · rw [if_pos hguard]
    · rw [if_neg hguard, if_neg (not_lt.mpr h1), if_neg ?_]
      rintro ⟨hgt, -⟩
      exact absurd h2 (not_le.mpr hgt)
  · intro h15 he hsum
    have hd : 0 < d := lt_trans (by norm_num [f32Eps]) he
    unfold calculate_force
    rw [if_neg (not_le.mpr he), if_neg (far_not_close p d hd h15),
      if_pos ⟨h15, rfl⟩]
    have hM : 0 < d ^ p.distance_factor := Real.rpow_pos_of_pos hd _
    have hexp : (-diff.x / d * d ^ p.distance_factor) * diff.x
        + (-diff.y / d * d ^ p.distance_factor) * diff.y
        = -((diff.x ^ 2 + diff.y ^ 2) / d * d ^ p.distance_factor) := by
      ring
    show (-diff.x / d * d ^ p.distance_factor) * diff.x
        + (-diff.y / d * d ^ p.distance_factor) * diff.y < 0
    rw [hexp, hsum, sq, mul_div_assoc, div_self (ne_of_gt hd), mul_one]
    have : 0 < d * d ^ p.distance_factor := mul_pos hd hM
    linarith
  · intro h15
    unfold calculate_force
    by_cases hguard : d ≤ f32Eps
    · rw [if_pos hguard]
    · have hd : 0 < d := lt_of_lt_of_le (by norm_num [f32Eps]) (not_le.mp hguard).le
      rw [if_neg hguard, if_neg (far_not_close p d hd h15), if_neg ?_]
      rintro ⟨-, hb⟩
      exact Bool.false_ne_true hb

/-- Witness for C1 at the default parameters: `d = 45` lies in the middle
band; `d = 100 > 67.5` with `diff = (100, 0)` is attractive for a neighbor
pair and zero for a non-neighbor pair. -/
theorem calculate_force_bands_witness :
    calculate_force Parameters.default ⟨1, 0⟩ 45 true = ⟨0, 0⟩ ∧
    (calculate_force Parameters.default ⟨100, 0⟩ 100 true).x * 100
      + (calculate_force Parameters.default ⟨100, 0⟩ 100 true).y * 0 < 0 ∧
    calculate_force Parameters.default ⟨100, 0⟩ 100 false = ⟨0, 0⟩ :=
  ⟨(calculate_force_bands Parameters.default ⟨1, 0⟩ 45 true).1
      (by norm_num [Parameters.default]) (by norm_num [Parameters.default]),
   (calculate_force_bands Parameters.default ⟨100, 0⟩ 100 true).2.1
      (by norm_num [Parameters.default]) (by norm_num [f32Eps]) (by norm_num),
   (calculate_force_bands Parameters.default ⟨100, 0⟩ 100 false).2.2
      (by norm_num [Parameters.default])⟩

/-! ## Claim C2 -/

/-- Claim C2 counterexample: no damping factor in (0,1] and no speed scale
make the source integrator equal the claimed update rule; at a node with
velocity (1,0) and zero acceleration the source sets the new velocity to
`0` (acceleration·dt), while the claimed rule keeps `damping·1 > 0`. -/
theorem integrator_not_spec_form :
    ¬ ∃ damping speed_scale : ℝ, 0 < damping ∧ damping ≤ 1 ∧
      ∀ (n : Node Unit) (dt : ℝ),
        n.update Parameters.default dt
          = specIntegratorStep damping speed_scale n dt := by
  rintro ⟨damping, speed_scale, hd, -, h⟩
  have h1 := congrArg Node.vx (h ⟨⟨(), 0, 0⟩, 0, 0, 1, 0⟩ 1)
  simp [Node.update, specIntegratorStep] at h1
  linarith

/-- Claim C2 (amended): per node and step the source integrator first
advances the position by `spring_factor * (old velocity) * dt`, then
replaces the velocity by `acceleration * dt` (the old velocity is discarded
and no damping is applied), then clears the accumulated acceleration. -/
theorem integrator_step_equations (p : Parameters) (n : Node U) (dt : ℝ) :
    (n.update p dt).data.x = n.data.x + p.spring_factor * n.vx * dt ∧
    (n.update p dt).data.y = n.data.y + p.spring_factor * n.vy * dt ∧
    (n.update p dt).vx = n.ax * dt ∧ (n.update p dt).vy = n.ay * dt ∧
    (n.update p dt).ax = 0 ∧ (n.update p dt).ay = 0 ∧
    (n.update p dt).data.user_data = n.data.user_data :=
  ⟨rfl, rfl, rfl, rfl, rfl, rfl, rfl⟩

/-! ## Claim C7 -/

/-- Claim C7 counterexample: two distances (0.02 and 0.05) both below
0.9×ideal on which the close-range force magnitude is EQUAL, not strictly
decreasing — below `really_close_distance` the denominator is clamped. -/
theorem close_force_not_strictly_decreasing :
    (0.02 : ℝ) < 0.05 ∧
    (0.05 : ℝ) < Parameters.default.ideal_distance * 0.9 ∧
    magnitude (calculate_force Parameters.default ⟨0.02, 0⟩ 0.02 false)
      = magnitude (calculate_force Parameters.default ⟨0.05, 0⟩ 0.05 false) := by
  refine ⟨by norm_num, by norm_num [Parameters.default], ?_⟩
  rw [close_force_magnitude Parameters.default ⟨0.02, 0⟩ 0.02
      (by norm_num [f32Eps]) (by norm_num [Parameters.default]) (by norm_num),
    close_force_magnitude Parameters.default ⟨0.05, 0⟩ 0.05
      (by norm_num [f32Eps]) (by norm_num [Parameters.default]) (by norm_num),
    max_eq_right (by norm_num [Parameters.default] : (0.02 : ℝ) ≤ Parameters.default.really_close_distance),
    max_eq_right (by norm_num [Parameters.default] : (0.05 : ℝ) ≤ Parameters.default.really_close_distance)]

/-- Claim C7 (amended): for a positive distance exponent the close-range
force magnitude strictly decreases as the distance increases over
`[really_close_distance, 0.9·ideal)`; below `really_close_distance` (and
above f32 epsilon) it is constant at
`1 / really_close_distance ^ distance_factor`. -/
theorem close_force_strict_decrease (p : Parameters) (d1 d2 : ℝ)
    (diff1 diff2 : Vec2)
    (hf : 0 < p.distance_factor) (he : f32Eps < p.really_close_distance)
    (h1 : p.really_close_distance ≤ d1) (h12 : d1 < d2)
    (h2 : d2 < p.ideal_distance * 0.9)
    (hs1 : diff1.x ^ 2 + diff1.y ^ 2 = d1 ^ 2)
    (hs2 : diff2.x ^ 2 + diff2.y ^ 2 = d2 ^ 2) :
    magnitude (calculate_force p diff2 d2 false)
      < magnitude (calculate_force p diff1 d1 false) ∧
    (∀ (d : ℝ) (diff : Vec2), f32Eps < d → d ≤ p.really_close_distance →
      diff.x ^ 2 + diff.y ^ 2 = d ^ 2 →
      magnitude (calculate_force p diff d false)
        = 1 / p.really_close_distance ^ p.distance_factor) := by
  have heps1 : f32Eps < d1 := lt_of_lt_of_le he h1
  have heps2 : f32Eps < d2 := lt_trans heps1 h12
  have hd1 : 0 < d1 := lt_trans (by norm_num [f32Eps]) heps1
  constructor
  · rw [close_force_magnitude p diff1 d1 heps1 (lt_trans h12 h2) hs1,
      close_force_magnitude p diff2 d2 heps2 h2 hs2,
      max_eq_left h1, max_eq_left (le_trans h1 h12.le)]
    exact one_div_lt_one_div_of_lt (Real.rpow_pos_of_pos hd1 _)
      (Real.rpow_lt_rpow hd1.le h12 hf)
  · intro d diff hde hdr hsum
    have hband : d < p.ideal_distance * 0.9 :=
      lt_of_le_of_lt (hdr.trans (h1.trans h12.le)) h2
    rw [close_force_magnitude p diff d hde hband hsum, max_eq_right hdr]

/-- Witness for the amended C7 at default parameters: the magnitude at
distance 1 is below the one at distance 0.1, and at distance 0.05 the
magnitude equals the clamped constant. -/
theorem close_force_strict_decrease_witness :
    magnitude (calculate_force Parameters.default ⟨1, 0⟩ 1 false)
      < magnitude (calculate_force Parameters.default ⟨0.1, 0⟩ 0.1 false) ∧
    magnitude (calculate_force Parameters.default ⟨0.05, 0⟩ 0.05 false)
      = 1 / Parameters.default.really_close_distance
          ^ Parameters.default.distance_factor := by
  have h := close_force_strict_decrease Parameters.default 0.1 1 ⟨0.1, 0⟩ ⟨1, 0⟩
    (by norm_num [Parameters.default]) (by norm_num [Parameters.default, f32Eps])
    (by norm_num [Parameters.default]) (by norm_num)
    (by norm_num [Parameters.default]) (by norm_num) (by norm_num)
  exact ⟨h.1, h.2 0.05 ⟨0.05, 0⟩ (by norm_num [f32Eps])
    (by norm_num [Parameters.default]) (by norm_num)⟩

/-! ## Claim C9 -/

/-- Claim C9 counterexample: `Node::apply` accumulates raw force components
into the acceleration without any clamp — no bound `force_max` can cap the
accumulated component over all forces (and the source `Parameters` record
has no such field at all). -/
theorem apply_unclamped :
    ¬ ∃ bound : ℝ, ∀ (n : Node Unit) (f : Vec2), |(n.apply f).ax| ≤ bound := by
  rintro ⟨bound, h⟩
  have h1 := h ⟨⟨(), 0, 0⟩, 0, 0, 0, 0⟩ ⟨|bound| + 1, 0⟩
  have h2 : ((⟨⟨(), 0, 0⟩, 0, 0, 0, 0⟩ : Node Unit).apply ⟨|bound| + 1, 0⟩).ax
      = |bound| + 1 := by
    simp [Node.apply]
  rw [h2, abs_of_nonneg (by positivity)] at h1
  linarith [le_abs_self bound]

/-- Claim C9 (amended): force components are accumulated unclamped and
without any `dt` factor at the point of application; `dt` multiplies the
accumulated acceleration later, in the integrator, when it becomes the new
velocity. -/
theorem apply_accumulates_raw (n : Node U) (f : Vec2) (p : Parameters) (dt : ℝ) :
    (n.apply f).ax = n.ax + f.x ∧ (n.apply f).ay = n.ay + f.y ∧
    (n.apply f).vx = n.vx ∧ (n.apply f).vy = n.vy ∧
    (n.apply f).data = n.data ∧
    ((n.apply f).update p dt).vx = (n.ax + f.x) * dt ∧
    ((n.apply f).update p dt).vy = (n.ay + f.y) * dt :=
  ⟨rfl, rfl, rfl, rfl, rfl, rfl, rfl⟩

/-! ## Claim C10 -/

/-- Claim C10 counterexample: at distance zero the force is the ZERO vector
(an early guard, no division occurs), not the force that substituting
distance 1.0 would give — at `diff = (1,0)` the latter would be `(1, 0)`. -/
theorem zero_distance_not_substituted_with_one :
    calculate_force Parameters.default ⟨1, 0⟩ 0 false = ⟨0, 0⟩ ∧
    calculate_force Parameters.default ⟨1, 0⟩ 1 false = ⟨1, 0⟩ ∧
    (⟨1, 0⟩ : Vec2) ≠ (⟨0, 0⟩ : Vec2) := by
  refine ⟨?_, ?_, ?_⟩
  · unfold calculate_force
    rw [if_pos (by norm_num [f32Eps])]
  · rw [close_force_components Parameters.default ⟨1, 0⟩ 1
      (by norm_num [f32Eps]) (by norm_num [Parameters.default]),
      max_eq_left (by norm_num [Parameters.default]), Real.one_rpow]
    simp
  · intro h
    have := congrArg Vec2.x h
    norm_num at this

/-- Claim C10 (amended): force computation at distance zero (indeed at any
distance at most f32 epsilon) returns the zero vector through an explicit
early guard, performing no division; the result is the (finite) zero
vector. -/
theorem calculate_force_zero_distance (p : Parameters) (diff : Vec2) (b : Bool) :
    calculate_force p diff 0 b = ⟨0, 0⟩ := by
  unfold calculate_force
  rw [if_pos (by norm_num [f32Eps])]

/-! ## Claim C6: the intersection scan -/

/-- Mapping a function over an option preserves whether it is `some`. -/
lemma optionMap_isSome (f : α → β) (o : Option α) :
    (o.map f).isSome = o.isSome := by
  cases o <;> rfl

/-- The endpoint-sharing test is symmetric. -/
lemma sharesEndpoint_symm (a b : ℕ × ℕ) :
    sharesEndpoint a b = sharesEndpoint b a := by
  rw [Bool.eq_iff_iff]
  simp only [sharesEndpoint, Bool.or_eq_true, beq_iff_eq]
  constructor
  · rintro (((h | h) | h) | h) <;> simp [h]
  · rintro (((h | h) | h) | h) <;> simp [h]

/-- Swapping the two segments does not change whether `get_line_intersection`
reports a crossing (the solved parameters `s` and `t` trade places). -/
lemma get_line_intersection_isSome_symm (l1 l2 : Vec2 × Vec2) :
    (get_line_intersection l1 l2).isSome = (get_line_intersection l2 l1).isSome := by
  obtain ⟨⟨x0, y0⟩, ⟨x1, y1⟩⟩ := l1
  obtain ⟨⟨x2, y2⟩, ⟨x3, y3⟩⟩ := l2
  simp only [get_line_intersection]
  have hs : (-(y3 - y2) * (x2 - x0) + (x3 - x2) * (y2 - y0)) /
      (-(x1 - x0) * (y3 - y2) + (x3 - x2) * (y1 - y0))
      = ((x3 - x2) * (y0 - y2) - (y3 - y2) * (x0 - x2)) /
        (-(x3 - x2) * (y1 - y0) + (x1 - x0) * (y3 - y2)) := by
    rw [show (-(x1 - x0) * (y3 - y2) + (x3 - x2) * (y1 - y0))
        = -(-(x3 - x2) * (y1 - y0) + (x1 - x0) * (y3 - y2)) by ring,
      show (-(y3 - y2) * (x2 - x0) + (x3 - x2) * (y2 - y0))
        = -((x3 - x2) * (y0 - y2) - (y3 - y2) * (x0 - x2)) by ring,
      neg_div_neg_eq]
  have ht : ((x1 - x0) * (y2 - y0) - (y1 - y0) * (x2 - x0)) /
      (-(x1 - x0) * (y3 - y2) + (x3 - x2) * (y1 - y0))
      = (-(y1 - y0) * (x0 - x2) + (x1 - x0) * (y0 - y2)) /
        (-(x3 - x2) * (y1 - y0) + (x1 - x0) * (y3 - y2)) := by
    rw [show (-(x1 - x0) * (y3 - y2) + (x3 - x2) * (y1 - y0))
        = -(-(x3 - x2) * (y1 - y0) + (x1 - x0) * (y3 - y2)) by ring,
      show ((x1 - x0) * (y2 - y0) - (y1 - y0) * (x2 - x0))
        = -(-(y1 - y0) * (x0 - x2) + (x1 - x0) * (y0 - y2)) by ring,
      neg_div_neg_eq]
  rw [hs, ht]
  split_ifs with h1 h2 h3 h4 h5 h6 h7 h8 <;>
    first
      | rfl
      | (exfalso; first
          | exact h2 (by linarith)
          | exact h1 (by linarith)
          | tauto)

/-- What a successful `intersectionTest` records: the reported pair is the
ordered id pair of the two edges, they share no endpoint, and the segments
are geometrically distinct. -/
lemma intersectionTest_some (a b : (ℕ × ℕ) × (Vec2 × Vec2))
    (info : IntersectionInfo) (h : intersectionTest a b = some info) :
    info.pair = (a.1, b.1) ∧ sharesEndpoint a.1 b.1 = false ∧ a.2 ≠ b.2 := by
  unfold intersectionTest at h
  by_cases h1 : a.2 = b.2
  · rw [if_pos h1] at h; exact Option.noConfusion h
  · rw [if_neg h1] at h
    by_cases h2 : sharesEndpoint a.1 b.1
    · rw [if_pos h2] at h; exact Option.noConfusion h
    · rw [if_neg h2] at h
      obtain ⟨v, -, hv⟩ := Option.map_eq_some'.mp h
      exact ⟨(congrArg IntersectionInfo.pair hv).symm,
        Bool.not_eq_true _ ▸ h2, h1⟩

/-- Claim C6 (amended): `visit_intersections` scans every ORDERED pair of
the collected edge segments (each unordered pair in both orders), invoking
the callback once for each ordered pair that passes the filters with a
detected crossing — so a crossing unordered pair fires twice; it never
invokes the callback for a pair sharing an endpoint, for two geometrically
identical segments, or for a segment against itself. -/
theorem visit_intersections_ordered_scan (g : ForceGraph U) :
    (∀ info ∈ g.visit_intersections,
        sharesEndpoint info.pair.1 info.pair.2 = false
        ∧ info.pair.1 ≠ info.pair.2) ∧
    (∀ info, info ∈ g.visit_intersections ↔
        ∃ a ∈ linesOf g.posFun g.edges, ∃ b ∈ linesOf g.posFun g.edges,
          intersectionTest a b = some info) ∧
    (∀ a b, (intersectionTest a b).isSome = (intersectionTest b a).isSome) := by
  refine ⟨?_, ?_, ?_⟩
  · intro info hmem
    rw [ForceGraph.visit_intersections] at hmem
    simp only [List.mem_flatMap, List.mem_filterMap] at hmem
    obtain ⟨a, -, b, -, hab⟩ := hmem
    obtain ⟨hpair, hshare, -⟩ := intersectionTest_some a b info hab
    rw [hpair]
    refine ⟨hshare, ?_⟩
    intro hcontra
    have : (a.1.1 == b.1.1) = true := by
      simp only [beq_iff_eq]
      exact congrArg Prod.fst hcontra
    simp [sharesEndpoint, this] at hshare
  · intro info
    rw [ForceGraph.visit_intersections]
    simp only [List.mem_flatMap, List.mem_filterMap]
  · intro a b
    unfold intersectionTest
    by_cases h1 : a.2 = b.2
    · rw [if_pos h1, if_pos h1.symm]
    · rw [if_neg h1, if_neg (show ¬ b.2 = a.2 from fun hc => h1 hc.symm)]
      by_cases h2 : sharesEndpoint a.1 b.1
      · rw [if_pos h2,
          if_pos (show sharesEndpoint b.1 a.1 = true from
            (sharesEndpoint_symm b.1 a.1).trans h2)]
      · rw [if_neg h2,
          if_neg (show ¬ sharesEndpoint b.1 a.1 = true from
            fun hc => h2 ((sharesEndpoint_symm a.1 b.1).trans hc))]
        rw [optionMap_isSome, optionMap_isSome]
        exact get_line_intersection_isSome_symm a.2 b.2

/-- The crossing of the X graph's two segments, computed. -/
lemma gX_line_cross :
    get_line_intersection (⟨0, 0⟩, ⟨10, 10⟩) (⟨0, 10⟩, ⟨10, 0⟩)
      = some ⟨5, 5⟩ := by
  norm_num [get_line_intersection, Vec2.mk.injEq]

/-- The crossing of the X graph's two segments in the reversed order. -/
lemma gX_line_cross_rev :
    get_line_intersection (⟨0, 10⟩, ⟨10, 0⟩) (⟨0, 0⟩, ⟨10, 10⟩)
      = some ⟨5, 5⟩ := by
  norm_num [get_line_intersection, Vec2.mk.injEq]

/-- Full evaluation of `visit_intersections` on the X graph: the single
unordered crossing pair is reported twice, once per order. -/
lemma gX_visit : gX.visit_intersections
    = [⟨5, 5, ((0, 1), (2, 3))⟩, ⟨5, 5, ((2, 3), (0, 1))⟩] := by
  have hlines : linesOf gX.posFun gX.edges
      = [((0, 1), (⟨0, 0⟩, ⟨10, 10⟩)), ((2, 3), (⟨0, 10⟩, ⟨10, 0⟩))] := by
    norm_num [linesOf, gX, nodeAt, ForceGraph.posFun, Vec2.mk.injEq]
  have t11 : intersectionTest ((0, 1), (⟨0, 0⟩, ⟨10, 10⟩))
      ((0, 1), (⟨0, 0⟩, ⟨10, 10⟩)) = none := by
    simp [intersectionTest]
  have t22 : intersectionTest ((2, 3), (⟨0, 10⟩, ⟨10, 0⟩))
      ((2, 3), (⟨0, 10⟩, ⟨10, 0⟩)) = none := by
    simp [intersectionTest]
  have t12 : intersectionTest ((0, 1), (⟨0, 0⟩, ⟨10, 10⟩))
      ((2, 3), (⟨0, 10⟩, ⟨10, 0⟩)) = some ⟨5, 5, ((0, 1), (2, 3))⟩ := by
    rw [intersectionTest, if_neg (by norm_num [Prod.ext_iff, Vec2.mk.injEq]),
      if_neg (by norm_num [sharesEndpoint]), gX_line_cross]
    rfl
  have t21 : intersectionTest ((2, 3), (⟨0, 10⟩, ⟨10, 0⟩))
      ((0, 1), (⟨0, 0⟩, ⟨10, 10⟩)) = some ⟨5, 5, ((2, 3), (0, 1))⟩ := by
    rw [intersectionTest, if_neg (by norm_num [Prod.ext_iff, Vec2.mk.injEq]),
      if_neg (by norm_num [sharesEndpoint]), gX_line_cross_rev]
    rfl
  rw [ForceGraph.visit_intersections, hlines]
  simp [List.filterMap_cons, t11, t12, t21, t22]

/-- Claim C6 counterexample: on the X graph the callback is invoked TWICE
for the single unordered pair of crossing edges (once per order), not
exactly once. -/
theorem visit_intersections_fires_twice :
    gX.visit_intersections.length = 2 ∧
    gX.visit_intersections.map IntersectionInfo.pair
      = [((0, 1), (2, 3)), ((2, 3), (0, 1))] ∧
    (2 : ℕ) ≠ 1 := by
  rw [gX_visit]
  exact ⟨rfl, rfl, by norm_num⟩

/-- Witness for the amended C6, at the X graph: the first reported
intersection shares no endpoint and is not a self-pair, it arises from an
ordered pair of collected segments, and the ordered-pair test is
order-insensitive on the X graph's two segments. -/
theorem visit_intersections_ordered_scan_witness :
    (sharesEndpoint (0, 1) (2, 3) = false ∧ ((0, 1) : ℕ × ℕ) ≠ (2, 3)) ∧
    (⟨5, 5, ((0, 1), (2, 3))⟩ : IntersectionInfo) ∈ gX.visit_intersections ∧
    (intersectionTest ((0, 1), (⟨0, 0⟩, ⟨10, 10⟩)) ((2, 3), (⟨0, 10⟩, ⟨10, 0⟩))).isSome
      = (intersectionTest ((2, 3), (⟨0, 10⟩, ⟨10, 0⟩)) ((0, 1), (⟨0, 0⟩, ⟨10, 10⟩))).isSome := by
  have h := visit_intersections_ordered_scan gX
  have hmem : (⟨5, 5, ((0, 1), (2, 3))⟩ : IntersectionInfo) ∈ gX.visit_intersections := by
    rw [gX_visit]; simp
  exact ⟨h.1 ⟨5, 5, ((0, 1), (2, 3))⟩ hmem, hmem,
    h.2.2 ((0, 1), (⟨0, 0⟩, ⟨10, 10⟩)) ((2, 3), (⟨0, 10⟩, ⟨10, 0⟩))⟩

/-! ## Claim C8 -/

/-- Claim C8 counterexample: the user-visible node data is in bijection with
(user payload, position x, position y) — it carries NO mass field and NO
anchor flag, so the claimed defaults (mass 10.0, not anchored) and the
anchor exemption from force application do not exist in the code. -/
theorem nodedata_no_mass_no_anchor :
    Function.Bijective (fun d : NodeData Unit => (d.user_data, d.x, d.y)) := by
  constructor
  · intro a b h
    exact NodeData.ext (congrArg (fun q => q.1) h)
      (congrArg (fun q => q.2.1) h) (congrArg (fun q => q.2.2) h)
  · rintro ⟨u, x, y⟩
    exact ⟨⟨u, x, y⟩, rfl⟩

/-- Claim C8 (amended): a node's user-visible data consists of exactly the
user payload and the position, with the position defaulting to (0,0); there
is no mass and no anchor flag, hence no node is exempted from force
application. -/
theorem nodedata_fields (u : U) :
    (NodeData.mkDefault u).x = 0 ∧ (NodeData.mkDefault u).y = 0 ∧
    (NodeData.mkDefault u).user_data = u ∧
    ∀ d : NodeData U, d = ⟨d.user_data, d.x, d.y⟩ :=
  ⟨rfl, rfl, rfl, fun _ => rfl⟩

/-! ## The update step: unfolding lemmas -/

@[simp] lemma stepParams_ideal (p : Parameters) :
    (stepParams p).ideal_distance = p.ideal_distance := rfl

@[simp] lemma stepParams_rcd (p : Parameters) :
    (stepParams p).really_close_distance = p.really_close_distance := rfl

@[simp] lemma stepParams_spring (p : Parameters) :
    (stepParams p).spring_factor = p.spring_factor := rfl

@[simp] lemma stepParams_escape (p : Parameters) :
    (stepParams p).escape_intersection_factor = p.escape_intersection_factor := rfl

@[simp] lemma stepParams_dfactor (p : Parameters) :
    (stepParams p).distance_factor = p.distance_factor := rfl

lemma sqrt_twentyfive : Real.sqrt 25 = 5 := by
  rw [show (25 : ℝ) = 5 ^ 2 by norm_num, Real.sqrt_sq (by norm_num : (0:ℝ) ≤ 5)]

/-- `ForceGraph.update` unfolded to its `updateLoop` call on the
count-bumped parameter record. -/
lemma update_of_loop (g : ForceGraph U) (order : List ℕ) (r dt : ℝ) :
    g.update order r dt
      = match updateLoop (stepParams g.parameters) order r dt
          ⟨g.nodes, g.edges, stepParams g.parameters⟩ order with
        | (g2, none) => g2
        | (g2, some (id, b)) => g2.setNode id ((g2.nodes id).displace b) := rfl

/-- The escape branch of the node loop: a stable head node with an escape
candidate gets the escape force applied and integrated, and the loop
short-circuits carrying the stored vector. -/
lemma updateLoop_escape (p : Parameters) (all : List ℕ) (r dt : ℝ)
    (g : ForceGraph U) (m : ℕ) (rest : List ℕ) (F V : Vec2)
    (hstable : (g.nodes m).is_stable)
    (hesc : g.firstEscape p m = some (F, V)) :
    updateLoop p all r dt g (m :: rest)
      = (g.setNode m (((g.nodes m).apply F).update p dt), some (m, V)) := by
  simp only [updateLoop]
  rw [if_pos hstable, hesc]

/-- The bounce branch of the node loop: when the head node's pairwise scan
hits a partner closer than `really_close_distance`, the node is integrated
with whatever acceleration the scan had accumulated so far and the loop
short-circuits carrying the bounce vector. -/
lemma updateLoop_pair_bounce (p : Parameters) (all : List ℕ) (r dt : ℝ)
    (g : ForceGraph U) (m : ℕ) (rest : List ℕ) (acc : Node U)
    (hnotesc : (if (g.nodes m).is_stable then g.firstEscape p m else none)
      = none)
    (hps : pairScan p g m (g.nodes m) all = (acc, true)) :
    updateLoop p all r dt g (m :: rest)
      = (g.setNode m (acc.update p dt),
         some (m, bounce r p.really_close_distance)) := by
  simp only [updateLoop]
  rw [hnotesc, hps]

/-- The ordinary branch of the node loop: no escape, no bounce — the head
node is integrated with the accumulated pairwise forces and the loop
continues with the remaining nodes. -/
lemma updateLoop_pair_cont (p : Parameters) (all : List ℕ) (r dt : ℝ)
    (g : ForceGraph U) (m : ℕ) (rest : List ℕ) (acc : Node U)
    (hnotesc : (if (g.nodes m).is_stable then g.firstEscape p m else none)
      = none)
    (hps : pairScan p g m (g.nodes m) all = (acc, false)) :
    updateLoop p all r dt g (m :: rest)
      = updateLoop p all r dt (g.setNode m (acc.update p dt)) rest := by
  simp only [updateLoop]
  rw [hnotesc, hps]

/-- A pairwise scan in which every partner is at least
`really_close_distance` away accumulates forces without bouncing and leaves
the node's position and velocity untouched. -/
lemma pairScan_no_bounce (p : Parameters) (g : ForceGraph U) (m : ℕ) :
    ∀ (all : List ℕ) (acc : Node U),
      (∀ n ∈ all, n ≠ m → p.really_close_distance ≤
        Real.sqrt ((acc.data.x - (g.nodes n).data.x) ^ 2
          + (acc.data.y - (g.nodes n).data.y) ^ 2)) →
      (pairScan p g m acc all).2 = false ∧
      (pairScan p g m acc all).1.data = acc.data ∧
      (pairScan p g m acc all).1.vx = acc.vx ∧
      (pairScan p g m acc all).1.vy = acc.vy := by
  intro all
  induction all with
  | nil =>
    intro acc h
    exact ⟨rfl, rfl, rfl, rfl⟩
  | cons n rest ih =>
    intro acc h
    by_cases hnm : n = m
    · simp only [pairScan]
      rw [if_pos hnm]
      exact ih acc fun k hk hkm => h k (List.mem_cons_of_mem _ hk) hkm
    · simp only [pairScan]
      rw [if_neg hnm,
        if_neg (not_lt.mpr (h n (List.mem_cons_self _ _) hnm))]
      exact ih _ fun k hk hkm => h k (List.mem_cons_of_mem _ hk) hkm

/-- Graphs whose stores agree on positions have the same position map. -/
lemma posFun_eq_of_data (g g' : ForceGraph U)
    (h : ∀ k, (g'.nodes k).data.x = (g.nodes k).data.x
        ∧ (g'.nodes k).data.y = (g.nodes k).data.y) :
    g'.posFun = g.posFun := by
  funext k
  exact Vec2.ext (h k).1 (h k).2

/-- The escape candidate only depends on the position map and the edges. -/
lemma firstEscape_congr (g g' : ForceGraph U) (p : Parameters) (m : ℕ)
    (hpos : g'.posFun = g.posFun) (hedges : g'.edges = g.edges) :
    g'.firstEscape p m = g.firstEscape p m := by
  unfold ForceGraph.firstEscape
  rw [hpos, hedges]

/-- The node loop at `dt = 0`, absent escape and bounce triggers: it
completes (no short-circuit), every position is left unchanged, every
processed node ends with zero velocity, and unprocessed nodes are
untouched. -/
lemma updateLoop_dt_zero (p : Parameters) (all : List ℕ) (r : ℝ) :
    ∀ (order : List ℕ) (g : ForceGraph U),
      order.Nodup →
      (∀ m ∈ order, (g.nodes m).is_stable → g.firstEscape p m = none) →
      (∀ m ∈ order, ∀ n ∈ all, n ≠ m → p.really_close_distance ≤
        Real.sqrt (((g.nodes m).data.x - (g.nodes n).data.x) ^ 2
          + ((g.nodes m).data.y - (g.nodes n).data.y) ^ 2)) →
      (updateLoop p all r 0 g order).2 = none ∧
      (∀ k, ((updateLoop p all r 0 g order).1.nodes k).data
        = (g.nodes k).data) ∧
      (∀ m ∈ order, ((updateLoop p all r 0 g order).1.nodes m).vx = 0
        ∧ ((updateLoop p all r 0 g order).1.nodes m).vy = 0) ∧
      (∀ k, k ∉ order →
        (updateLoop p all r 0 g order).1.nodes k = g.nodes k) := by
  intro order
  induction order with
  | nil =>
    intro g _ _ _
    exact ⟨rfl, fun k => rfl, by simp, fun k _ => rfl⟩
  | cons m rest ih =>
    intro g hnd hesc hfar
    have hm_rest : m ∉ rest := (List.nodup_cons.mp hnd).1
    have hnd' : rest.Nodup := (List.nodup_cons.mp hnd).2
    have hnotesc : (if (g.nodes m).is_stable then g.firstEscape p m else none)
        = none := by
      by_cases hs : (g.nodes m).is_stable
      · rw [if_pos hs]
        exact hesc m (List.mem_cons_self _ _) hs
      · rw [if_neg hs]
    obtain ⟨hflag, hdata, hvx, hvy⟩ := pairScan_no_bounce p g m all (g.nodes m)
      (fun n hn hnm => hfar m (List.mem_cons_self _ _) n hn hnm)
    have hsplit : pairScan p g m (g.nodes m) all
        = ((pairScan p g m (g.nodes m) all).1, false) := by
      rw [← hflag]
    rw [updateLoop_pair_cont p all r 0 g m rest _ hnotesc hsplit]
    have hupd : (((pairScan p g m (g.nodes m) all).1).update p 0).data
        = (g.nodes m).data := by
      rw [← hdata]
      ext <;> simp [Node.update]
    have hg1data : ∀ k,
        ((g.setNode m (((pairScan p g m (g.nodes m) all).1).update p 0)).nodes k).data
          = (g.nodes k).data := by
      intro k
      by_cases hk : k = m
      · subst hk
        show (Function.update g.nodes k _ k).data = _
        rw [Function.update_same]
        exact hupd
      · show (Function.update g.nodes m _ k).data = _
        rw [Function.update_noteq hk]
    have hesc1 : ∀ m' ∈ rest,
        (((g.setNode m (((pairScan p g m (g.nodes m) all).1).update p 0)).nodes m').is_stable) →
        (g.setNode m (((pairScan p g m (g.nodes m) all).1).update p 0)).firstEscape p m'
          = none := by
      intro m' hm' hs
      have hne : m' ≠ m := fun hEq => hm_rest (hEq ▸ hm')
      have hnodeeq : (g.setNode m (((pairScan p g m (g.nodes m) all).1).update p 0)).nodes m'
          = g.nodes m' := by
        show Function.update g.nodes m _ m' = g.nodes m'
        exact Function.update_noteq hne _ _
      rw [firstEscape_congr g _ p m'
        (posFun_eq_of_data _ _ fun k =>
          ⟨congrArg NodeData.x (hg1data k), congrArg NodeData.y (hg1data k)⟩) rfl]
      apply hesc m' (List.mem_cons_of_mem _ hm')
      rwa [hnodeeq] at hs
    have hfar1 : ∀ m' ∈ rest, ∀ n ∈ all, n ≠ m' →
        p.really_close_distance ≤
        Real.sqrt
          ((((g.setNode m (((pairScan p g m (g.nodes m) all).1).update p 0)).nodes m').data.x
              - ((g.setNode m (((pairScan p g m (g.nodes m) all).1).update p 0)).nodes n).data.x) ^ 2
            + (((g.setNode m (((pairScan p g m (g.nodes m) all).1).update p 0)).nodes m').data.y
              - ((g.setNode m (((pairScan p g m (g.nodes m) all).1).update p 0)).nodes n).data.y) ^ 2) := by
      intro m' hm' n hn hnm'
      rw [hg1data m', hg1data n]
      exact hfar m' (List.mem_cons_of_mem _ hm') n hn hnm'
    obtain ⟨ih1, ih2, ih3, ih4⟩ :=
      ih (g.setNode m (((pairScan p g m (g.nodes m) all).1).update p 0))
        hnd' hesc1 hfar1
    refine ⟨ih1, ?_, ?_, ?_⟩
    · intro k
      rw [ih2 k, hg1data k]
    · intro m'' hm''
      rcases List.mem_cons.mp hm'' with hEq | hm''
      · subst hEq
        rw [ih4 m'' hm_rest]
        constructor
        · show (Function.update g.nodes m'' _ m'').vx = 0
          rw [Function.update_same]
          exact mul_zero _
        · show (Function.update g.nodes m'' _ m'').vy = 0
          rw [Function.update_same]
          exact mul_zero _
      · exact ih3 _ hm''
    · intro k hk
      have hkm : k ≠ m := fun hEq => hk (hEq ▸ List.mem_cons_self _ _)
      have hkrest : k ∉ rest := fun hIn => hk (List.mem_cons_of_mem _ hIn)
      rw [ih4 k hkrest]
      show Function.update g.nodes m _ k = g.nodes k
      exact Function.update_noteq hkm _ _

/-- Claim C3 (amended): `update(dt = 0)` leaves every position unchanged and
ZEROES (rather than preserves) the velocity of every processed node,
PROVIDED no bounce triggers (no two processed nodes within
`really_close_distance`) and no stable node has an escape candidate; a
triggered bounce or escape additionally displaces one node's position even
at `dt = 0`. -/
theorem update_dt_zero (g : ForceGraph U) (order : List ℕ) (r : ℝ)
    (hnd : order.Nodup)
    (hesc : ∀ m ∈ order, (g.nodes m).is_stable →
      g.firstEscape (stepParams g.parameters) m = none)
    (hfar : ∀ m ∈ order, ∀ n ∈ order, n ≠ m →
      g.parameters.really_close_distance ≤
        Real.sqrt (((g.nodes m).data.x - (g.nodes n).data.x) ^ 2
          + ((g.nodes m).data.y - (g.nodes n).data.y) ^ 2)) :
    (∀ k, ((g.update order r 0).nodes k).data = (g.nodes k).data) ∧
    (∀ m ∈ order, ((g.update order r 0).nodes m).vx = 0
      ∧ ((g.update order r 0).nodes m).vy = 0) := by
  have H := updateLoop_dt_zero (stepParams g.parameters) order r order
    (⟨g.nodes, g.edges, stepParams g.parameters⟩ : ForceGraph U) hnd
    (fun m hm hs => hesc m hm hs)
    (fun m hm n hn hnm => hfar m hm n hn hnm)
  rw [update_of_loop]
  have hsplit : updateLoop (stepParams g.parameters) order r 0
      ⟨g.nodes, g.edges, stepParams g.parameters⟩ order
      = ((updateLoop (stepParams g.parameters) order r 0
          ⟨g.nodes, g.edges, stepParams g.parameters⟩ order).1, none) := by
    rw [← H.1]
  rw [hsplit]
  exact ⟨H.2.1, H.2.2.1⟩

/-- Witness for the amended C3: a single free node with velocity (3,4) at
position (1,2); after `update(dt=0)` its position is unchanged and its
velocity has been zeroed. -/
theorem update_dt_zero_witness :
    ((gW.update [0] 0 0).nodes 0).data = (gW.nodes 0).data ∧
    ((gW.update [0] 0 0).nodes 0).vx = 0 ∧
    ((gW.update [0] 0 0).nodes 0).vy = 0 := by
  have H := update_dt_zero gW [0] 0 (by simp)
    (fun m hm hs => by
      simp [ForceGraph.firstEscape, visitNeighborAux, gW, neighborIds,
        escapeScan])
    (fun m hm n hn hnm => by
      simp only [List.mem_singleton] at hm hn
      subst hm
      subst hn
      exact absurd rfl hnm)
  exact ⟨H.1 0, H.2 0 (by simp)⟩

/-! ## Escape and bounce paths of the update step -/

/-- The escape path of `ForceGraph::update`, spelled out: with a stable head
node whose first local intersection is at distance at least
`really_close_distance`, the step applies the scaled force-model impulse on
the node→intersection displacement, integrates the node, displaces it by
that displacement, and touches no other node. -/
lemma update_escape_eq (g : ForceGraph U) (m : ℕ) (rest : List ℕ) (r dt : ℝ)
    (info : IntersectionInfo) (tail : List IntersectionInfo)
    (dx dy d : ℝ) (F : Vec2)
    (hstable : (g.nodes m).is_stable)
    (hvis : visitNeighborAux g.posFun g.edges m = info :: tail)
    (hdx : dx = info.x - (g.nodes m).data.x)
    (hdy : dy = info.y - (g.nodes m).data.y)
    (hd : d = Real.sqrt (dx ^ 2 + dy ^ 2))
    (hqual : g.parameters.really_close_distance ≤ d)
    (hF : F = (calculate_force (stepParams g.parameters) ⟨dx, dy⟩ d
        false).scale g.parameters.escape_intersection_factor) :
    (g.update (m :: rest) r dt).nodes
      = Function.update g.nodes m
          ((((g.nodes m).apply F).update (stepParams g.parameters) dt).displace
            ⟨dx, dy⟩) := by
  subst hdx
  subst hdy
  subst hd
  subst hF
  have hesc1 : ForceGraph.firstEscape
      (⟨g.nodes, g.edges, stepParams g.parameters⟩ : ForceGraph U)
      (stepParams g.parameters) m
      = some ((calculate_force (stepParams g.parameters)
            ⟨info.x - (g.nodes m).data.x, info.y - (g.nodes m).data.y⟩
            (Real.sqrt ((info.x - (g.nodes m).data.x) ^ 2
              + (info.y - (g.nodes m).data.y) ^ 2)) false).scale
          g.parameters.escape_intersection_factor,
        ⟨info.x - (g.nodes m).data.x, info.y - (g.nodes m).data.y⟩) := by
    unfold ForceGraph.firstEscape
    rw [show (⟨g.nodes, g.edges, stepParams g.parameters⟩ : ForceGraph U).posFun
        = g.posFun from rfl,
      show (⟨g.nodes, g.edges, stepParams g.parameters⟩ : ForceGraph U).edges
        = g.edges from rfl, hvis]
    simp only [escapeScan]
    rw [show g.posFun m = ⟨(g.nodes m).data.x, (g.nodes m).data.y⟩ from rfl]
    dsimp only
    rw [stepParams_rcd, if_neg (not_lt.mpr hqual)]
    rfl
  rw [update_of_loop]
  rw [updateLoop_escape (stepParams g.parameters) (m :: rest) r dt
      (⟨g.nodes, g.edges, stepParams g.parameters⟩ : ForceGraph U) m rest _ _
      hstable hesc1]
  dsimp only
  simp only [ForceGraph.setNode]
  rw [Function.update_same, Function.update_idem]

/-- The bounce path of `ForceGraph::update` on a two-node active set with
coincident positions: the first node is integrated with no accumulated
force, then displaced by the bounce vector; the second node is untouched
(the loop is short-circuited). -/
lemma update_bounce_two_nodes (g : ForceGraph U) (i j : ℕ) (r dt : ℝ)
    (hij : i ≠ j)
    (hedges : g.edges = [])
    (hx : (g.nodes i).data.x = (g.nodes j).data.x)
    (hy : (g.nodes i).data.y = (g.nodes j).data.y)
    (hrcd : 0 < g.parameters.really_close_distance) :
    (g.update [i, j] r dt).nodes
      = Function.update g.nodes i
          (((g.nodes i).update (stepParams g.parameters) dt).displace
            (bounce r g.parameters.really_close_distance)) := by
  have hGn : (⟨g.nodes, g.edges, stepParams g.parameters⟩ : ForceGraph U).nodes
      = g.nodes := rfl
  have hnotesc : (if ((⟨g.nodes, g.edges, stepParams g.parameters⟩ :
        ForceGraph U).nodes i).is_stable
      then (⟨g.nodes, g.edges, stepParams g.parameters⟩ :
        ForceGraph U).firstEscape (stepParams g.parameters) i
      else none) = none := by
    have hfe : (⟨g.nodes, g.edges, stepParams g.parameters⟩ :
        ForceGraph U).firstEscape (stepParams g.parameters) i = none := by
      unfold ForceGraph.firstEscape visitNeighborAux
      rw [show (⟨g.nodes, g.edges, stepParams g.parameters⟩ :
        ForceGraph U).edges = g.edges from rfl, hedges]
      simp [neighborIds, escapeScan]
    rw [hfe, ite_self]
  have hps : pairScan (stepParams g.parameters)
      (⟨g.nodes, g.edges, stepParams g.parameters⟩ : ForceGraph U) i
      ((⟨g.nodes, g.edges, stepParams g.parameters⟩ :
        ForceGraph U).nodes i) [i, j]
      = (g.nodes i, true) := by
    rw [hGn]
    simp only [pairScan]
    rw [if_pos trivial]
    rw [if_neg (show ¬ j = i from fun h => hij h.symm)]
    rw [show (g.nodes i).data.x - (g.nodes j).data.x = 0 from by
        rw [hx]; ring,
      show (g.nodes i).data.y - (g.nodes j).data.y = 0 from by
        rw [hy]; ring]
    rw [show (0:ℝ) ^ 2 + 0 ^ 2 = 0 by norm_num, Real.sqrt_zero,
      stepParams_rcd, if_pos hrcd]
  rw [update_of_loop]
  rw [updateLoop_pair_bounce (stepParams g.parameters) [i, j] r dt
      (⟨g.nodes, g.edges, stepParams g.parameters⟩ : ForceGraph U) i [j]
      (g.nodes i) hnotesc hps]
  dsimp only
  simp only [ForceGraph.setNode]
  rw [Function.update_same, Function.update_idem]
  rfl

/-! ## Claim C4 -/

/-- Claim C4 (amended): when the first processed node `m` is stable and its
local-intersection scan yields a first crossing at distance at least
`really_close_distance`, `update` applies to `m` — instead of its pairwise
pass — an impulse equal to the pairwise force model evaluated on the
displacement FROM the node TO the intersection point (in the close band
this points toward the crossing, not away from it), scaled by
`escape_intersection_factor`; it integrates `m`, additionally displaces `m`
by that whole displacement vector (onto the crossing point), and processes
no further nodes this step. -/
theorem escape_step (g : ForceGraph U) (m : ℕ) (rest : List ℕ) (r dt : ℝ)
    (info : IntersectionInfo) (tail : List IntersectionInfo)
    (dx dy d : ℝ) (F : Vec2)
    (hstable : (g.nodes m).is_stable)
    (hvis : visitNeighborAux g.posFun g.edges m = info :: tail)
    (hdx : dx = info.x - (g.nodes m).data.x)
    (hdy : dy = info.y - (g.nodes m).data.y)
    (hd : d = Real.sqrt (dx ^ 2 + dy ^ 2))
    (hqual : g.parameters.really_close_distance ≤ d)
    (hF : F = (calculate_force (stepParams g.parameters) ⟨dx, dy⟩ d
        false).scale g.parameters.escape_intersection_factor) :
    (g.update (m :: rest) r dt).nodes
      = Function.update g.nodes m
          ((((g.nodes m).apply F).update (stepParams g.parameters) dt).displace
            ⟨dx, dy⟩) :=
  update_escape_eq g m rest r dt info tail dx dy d F hstable hvis hdx hdy hd
    hqual hF

/-- The crossing of the escape example's two segments, computed. -/
lemma gE_cross :
    get_line_intersection (⟨0, 0⟩, ⟨10, 0⟩) (⟨5, -5⟩, ⟨5, 5⟩)
      = some ⟨5, 0⟩ := by
  norm_num [get_line_intersection, Vec2.mk.injEq]

/-- The local-intersection scan of node 0 in the escape example graph:
exactly one crossing, at (5,0). -/
lemma gE_visit : visitNeighborAux gE.posFun gE.edges 0
    = [⟨5, 0, ((0, 1), (2, 3))⟩] := by
  have t : intersectionTest ((0, 1), (⟨0, 0⟩, ⟨10, 0⟩))
      ((2, 3), (⟨5, -5⟩, ⟨5, 5⟩)) = some ⟨5, 0, ((0, 1), (2, 3))⟩ := by
    rw [intersectionTest, if_neg (by norm_num [Prod.ext_iff, Vec2.mk.injEq]),
      if_neg (by norm_num [sharesEndpoint]), gE_cross]
    rfl
  show ([((0, 1), ((⟨0, 0⟩ : Vec2), (⟨10, 0⟩ : Vec2)))].flatMap fun a =>
      List.filterMap (fun b => intersectionTest a b)
        [((2, 3), ((⟨5, -5⟩ : Vec2), (⟨5, 5⟩ : Vec2)))]) = _
  simp [t]

/-- Node 0 of the escape example is stable. -/
lemma gE_stable : (gE.nodes 0).is_stable := by
  constructor <;> norm_num [gE, nodeAt, f32Eps]

/-- The escape example's crossing is at distance 5 ≥ 0.1 from node 0. -/
lemma gE_qual : gE.parameters.really_close_distance
    ≤ Real.sqrt (5 ^ 2 + 0 ^ 2) := by
  rw [show (5:ℝ) ^ 2 + 0 ^ 2 = 25 by norm_num, sqrt_twentyfive]
  norm_num [gE, Parameters.default]

/-- The escape example's update step, fully evaluated (shared by the
counterexample below, independently of the claim theorem). -/
lemma gE_update_nodes :
    (gE.update [0, 1, 2, 3] 0 1).nodes
      = Function.update gE.nodes 0
          ((((gE.nodes 0).apply
              ((calculate_force (stepParams gE.parameters) ⟨5, 0⟩
                  (Real.sqrt (5 ^ 2 + 0 ^ 2)) false).scale
                gE.parameters.escape_intersection_factor)).update
            (stepParams gE.parameters) 1).displace ⟨5, 0⟩) :=
  update_escape_eq gE 0 [1, 2, 3] 0 1 ⟨5, 0, ((0, 1), (2, 3))⟩ [] 5 0
    (Real.sqrt (5 ^ 2 + 0 ^ 2))
    ((calculate_force (stepParams gE.parameters) ⟨5, 0⟩
        (Real.sqrt (5 ^ 2 + 0 ^ 2)) false).scale
      gE.parameters.escape_intersection_factor)
    gE_stable gE_visit (by norm_num [gE, nodeAt]) (by norm_num [gE, nodeAt])
    rfl gE_qual rfl

/-- Witness for the amended C4 on the escape example graph. -/
theorem escape_step_witness :
    (gE.update [0, 1, 2, 3] 0 1).nodes
      = Function.update gE.nodes 0
          ((((gE.nodes 0).apply
              ((calculate_force (stepParams gE.parameters) ⟨5, 0⟩
                  (Real.sqrt (5 ^ 2 + 0 ^ 2)) false).scale
                gE.parameters.escape_intersection_factor)).update
            (stepParams gE.parameters) 1).displace ⟨5, 0⟩) :=
  escape_step gE 0 [1, 2, 3] 0 1 ⟨5, 0, ((0, 1), (2, 3))⟩ [] 5 0
    (Real.sqrt (5 ^ 2 + 0 ^ 2))
    ((calculate_force (stepParams gE.parameters) ⟨5, 0⟩
        (Real.sqrt (5 ^ 2 + 0 ^ 2)) false).scale
      gE.parameters.escape_intersection_factor)
    gE_stable gE_visit (by norm_num [gE, nodeAt]) (by norm_num [gE, nodeAt])
    rfl gE_qual rfl

/-- Claim C4 counterexample: on the escape example graph the stable node 0
(at the origin, crossing detected at (5,0), i.e. in the +x direction) ends
the step with STRICTLY POSITIVE x-velocity — the escape impulse accelerates
it TOWARD the intersection point, not repulsively away from it — and its
position is moved exactly onto the intersection point (5,0). -/
theorem escape_impulse_toward_intersection :
    0 < ((gE.update [0, 1, 2, 3] 0 1).nodes 0).vx ∧
    ((gE.update [0, 1, 2, 3] 0 1).nodes 0).data.x = 5 ∧
    ((gE.update [0, 1, 2, 3] 0 1).nodes 0).data.y = 0 := by
  have hd5 : Real.sqrt (5 ^ 2 + 0 ^ 2) = 5 := by
    rw [show (5:ℝ) ^ 2 + 0 ^ 2 = 25 by norm_num, sqrt_twentyfive]
  rw [gE_update_nodes, Function.update_same]
  rw [hd5, close_force_components (stepParams gE.parameters) ⟨5, 0⟩ 5
    (by norm_num [f32Eps])
    (by rw [stepParams_ideal]; norm_num [gE, Parameters.default])]
  refine ⟨?_, ?_, ?_⟩
  · simp only [Node.displace, Node.update, Node.apply, Vec2.scale]
    rw [stepParams_rcd, stepParams_dfactor]
    norm_num [gE, nodeAt, Parameters.default]
    positivity
  · simp only [Node.displace, Node.update, Node.apply, Vec2.scale]
    rw [stepParams_spring]
    norm_num [gE, nodeAt, Parameters.default]
  · simp only [Node.displace, Node.update, Node.apply, Vec2.scale]
    rw [stepParams_spring]
    norm_num [gE, nodeAt, Parameters.default]

/-! ## Claim C5 -/

/-- Claim C5 (amended): when the pairwise scan of the first processed node
meets a coincident partner (distance below `really_close_distance`), the
node is integrated and then displaced EXACTLY ONCE, at the end of the step,
by the vector `(x, sqrt(1 - x²)·d)` with `x = rand·d` computed from one
random draw, the remaining loop is short-circuited (the partner is
untouched), and the displacement's squared magnitude is
`d² + x²·(1 - d²)` — equal to `d²` only when the draw is 0 or `d = 1`, not
in general. -/
theorem bounce_step (g : ForceGraph U) (i j : ℕ) (r dt : ℝ)
    (hij : i ≠ j) (hedges : g.edges = [])
    (hx : (g.nodes i).data.x = (g.nodes j).data.x)
    (hy : (g.nodes i).data.y = (g.nodes j).data.y)
    (hrcd : 0 < g.parameters.really_close_distance)
    (hr0 : 0 ≤ r) (hr1 : r * g.parameters.really_close_distance ≤ 1) :
    (g.update [i, j] r dt).nodes
      = Function.update g.nodes i
          (((g.nodes i).update (stepParams g.parameters) dt).displace
            (bounce r g.parameters.really_close_distance)) ∧
    (bounce r g.parameters.really_close_distance).x
      = r * g.parameters.really_close_distance ∧
    (bounce r g.parameters.really_close_distance).y
      = Real.sqrt (1 - (r * g.parameters.really_close_distance) ^ 2)
          * g.parameters.really_close_distance ∧
    (bounce r g.parameters.really_close_distance).x ^ 2
      + (bounce r g.parameters.really_close_distance).y ^ 2
      = g.parameters.really_close_distance ^ 2
        + (r * g.parameters.really_close_distance) ^ 2
          * (1 - g.parameters.really_close_distance ^ 2) := by
  refine ⟨update_bounce_two_nodes g i j r dt hij hedges hx hy hrcd,
    rfl, rfl, ?_⟩
  have hx2 : (r * g.parameters.really_close_distance) ^ 2 ≤ 1 := by
    nlinarith [mul_nonneg hr0 hrcd.le]
  have hs : Real.sqrt (1 - (r * g.parameters.really_close_distance) ^ 2) ^ 2
      = 1 - (r * g.parameters.really_close_distance) ^ 2 :=
    Real.sq_sqrt (by linarith)
  show (r * g.parameters.really_close_distance) ^ 2
      + (Real.sqrt (1 - (r * g.parameters.really_close_distance) ^ 2)
          * g.parameters.really_close_distance) ^ 2 = _
  linear_combination g.parameters.really_close_distance ^ 2 * hs

/-- Witness for the amended C5: two coincident zero-state nodes at the
origin, draw 1/2, dt = 1, default parameters. -/
theorem bounce_step_witness :
    ((gB.update [0, 1] (1/2) 1).nodes
      = Function.update gB.nodes 0
          (((gB.nodes 0).update (stepParams gB.parameters) 1).displace
            (bounce (1/2) gB.parameters.really_close_distance))) ∧
    (bounce (1/2) gB.parameters.really_close_distance).x
      = 1/2 * gB.parameters.really_close_distance ∧
    (bounce (1/2) gB.parameters.really_close_distance).y
      = Real.sqrt (1 - (1/2 * gB.parameters.really_close_distance) ^ 2)
          * gB.parameters.really_close_distance ∧
    (bounce (1/2) gB.parameters.really_close_distance).x ^ 2
      + (bounce (1/2) gB.parameters.really_close_distance).y ^ 2
      = gB.parameters.really_close_distance ^ 2
        + (1/2 * gB.parameters.really_close_distance) ^ 2
          * (1 - gB.parameters.really_close_distance ^ 2) :=
  bounce_step gB 0 1 (1/2) 1 (by norm_num) rfl rfl rfl
    (by norm_num [gB, Parameters.default]) (by norm_num)
    (by norm_num [gB, Parameters.default])

/-- Claim C5 counterexample: on two coincident nodes with draw 1/2 the
displaced node ends at squared distance 499/40000 from the origin, which is
NOT the square of the minimal distance 0.1 — the bounce vector does not
have "that minimal magnitude". -/
theorem bounce_magnitude_not_minimal :
    ((gB.update [0, 1] (1/2) 1).nodes 0).data.x ^ 2
      + ((gB.update [0, 1] (1/2) 1).nodes 0).data.y ^ 2
      ≠ Parameters.default.really_close_distance ^ 2 := by
  rw [update_bounce_two_nodes gB 0 1 (1/2) 1 (by norm_num) rfl rfl rfl
      (by norm_num [gB, Parameters.default]), Function.update_same]
  simp only [Node.update, Node.displace, bounce]
  rw [stepParams_spring]
  norm_num [gB, nodeAt, Parameters.default]
  rw [mul_pow, div_pow, Real.sq_sqrt (by norm_num : (0:ℝ) ≤ 399),
    Real.sq_sqrt (by norm_num : (0:ℝ) ≤ 400)]
  norm_num

/-- Claim C3 counterexample: two coincident nodes, node 0 with velocity
(1,0); `update(dt = 0)` ZEROES node 0's velocity (it is not left unchanged)
and MOVES node 0's position (the bounce displacement fires even at dt = 0). -/
theorem update_dt_zero_not_noop :
    ((gC.update [0, 1] (1/2) 0).nodes 0).vx ≠ (gC.nodes 0).vx ∧
    0 < ((gC.update [0, 1] (1/2) 0).nodes 0).data.y ∧
    (gC.nodes 0).data.y = 0 := by
  rw [update_bounce_two_nodes gC 0 1 (1/2) 0 (by norm_num) rfl
      (by norm_num [gC, nodeAt]) (by norm_num [gC, nodeAt])
      (by norm_num [gC, Parameters.default]), Function.update_same]
  refine ⟨?_, ?_, by norm_num [gC]⟩
  · simp only [Node.update, Node.displace]
    norm_num [gC]
  · simp only [Node.update, Node.displace, bounce]
    rw [stepParams_spring]
    norm_num [gC, nodeAt, Parameters.default]

end NaiveForceGraph
